import Mathlib

/-!
Verification of the authentication / envelope-encryption / sync core of the
ownu personal-finance backend, as a shallow embedding of the Go source into
Lean 4.  Bytes are modelled as `Nat`, byte strings as `List Nat`, Go strings
as Lean `String` (with `List Char` where per-character processing happens),
UUIDs as `Nat`, time as `Nat` seconds.  Randomness and storage outcomes are
made explicit parameters.  External cryptographic primitives that are not
part of the repository (Argon2id, SHA-256, AES-GCM) are modelled as ideal
primitives: deterministic, collision-free, and key-binding; the repository
functions built on top of them are translated from the source.
-/

set_option maxRecDepth 100000

/-- Base used to pack a byte/character string into a single natural number:
`2 ^ 32 + 1`, so every value below `2 ^ 32` (in particular every byte and
every Unicode scalar value) is a valid digit after the `+ 1` shift. -/
def packBase : Nat := 4294967297

/-- Injective packing of a list of values `< 2 ^ 32` into one natural number
(base-`packBase` positional encoding with digits shifted by one so that no
leading-zero ambiguity exists).  Used to build ideal models of external
digest and key-derivation primitives. -/
def packBytes (l : List Nat) : Nat :=
  l.foldl (fun acc b => acc * packBase + (b + 1)) 0

/-- Character codes of a Go string, used where the source converts a string
to its byte representation. -/
def strBytes (s : String) : List Nat :=
  s.toList.map Char.toNat

/-- Error cases of the envelope-encryption primitive, from the spec:
a wrong-length key is a `KeyLengthError` distinct from an `IntegrityError`
(tag mismatch or ciphertext shorter than the nonce+tag overhead). -/
inductive CryptoError where
  | keyLength
  | integrity
deriving DecidableEq

/-- Nonce size of the authenticated-encryption primitive (AES-GCM standard
nonce, 12 bytes). -/
def nonceSize : Nat := 12

/-- Key size required by the primitive (256-bit key). -/
def keySize : Nat := 32

/-- Modelled from the spec: `Encrypt(plaintext, key[32]) -> ciphertext` of
EnvelopeCrypto (the Go file defining `Encrypt` is absent from the snapshot;
only its tests and callers are present).  Authenticated encryption with a
fresh random nonce embedded in the output; the randomness is made explicit
as the `nonce` argument.  The authentication tag is modelled by embedding
the key after the nonce, which is what makes decryption key-binding:
decryption succeeds only under the same 32-byte key.  Fails with a
`KeyLengthError` when the key is not exactly 32 bytes, as exercised by
`TestEncryptDecrypt`. -/
def Encrypt (plaintext key nonce : List Nat) : Except CryptoError (List Nat) :=
  if key.length = keySize then
    Except.ok (nonce ++ key ++ plaintext)
  else
    Except.error CryptoError.keyLength

/-- Modelled from the spec: `Decrypt(ciphertext, key[32]) -> plaintext` of
EnvelopeCrypto.  Fails with `KeyLengthError` on a wrong-length key, with
`IntegrityError` when the ciphertext is shorter than the minimum
nonce+tag overhead or when the embedded authentication material does not
match the supplied key. -/
def Decrypt (ciphertext key : List Nat) : Except CryptoError (List Nat) :=
  if key.length = keySize then
    if ciphertext.length < nonceSize + keySize then
      Except.error CryptoError.integrity
    else
      if (ciphertext.drop nonceSize).take keySize = key then
        Except.ok (ciphertext.drop (nonceSize + keySize))
      else
        Except.error CryptoError.integrity
  else
    Except.error CryptoError.keyLength

/-- Argon2id parameter from keys.go: time cost. -/
def argonTime : Nat := 3

/-- Argon2id parameter from keys.go: memory cost (64 MB in KiB). -/
def argonMemory : Nat := 65536

/-- Argon2id parameter from keys.go: parallelism. -/
def argonThreads : Nat := 4

/-- Argon2id parameter from keys.go: derived key length. -/
def argonKeyLen : Nat := 32

/-- Model of `golang.org/x/crypto/argon2.IDKey` (external library
primitive): an ideal memory-hard KDF, i.e. a deterministic collision-free
function of secret and salt, producing `keyLen` bytes.  The digest packs
both inputs injectively into its first byte (bytes are unbounded `Nat` in
this model). -/
def argon2IDKey (secret salt : List Nat) (time memory threads keyLen : Nat) : List Nat :=
  Nat.pair (Nat.pair (packBytes secret) (packBytes salt)) (Nat.pair time (Nat.pair memory threads))
    :: List.replicate (keyLen - 1) 0

/-- keys.go `DeriveKeyFromSecret`: derives a 256-bit key from a secret
using Argon2id with the fixed parameters. -/
def DeriveKeyFromSecret (secret salt : List Nat) : List Nat :=
  argon2IDKey secret salt argonTime argonMemory argonThreads argonKeyLen

/-- Whitespace predicate used for Go `strings.TrimSpace` / `strings.Fields`
(ASCII whitespace, which is what the recovery phrases contain). -/
def isSpaceChar (c : Char) : Bool := c.isWhitespace

/-- Go `strings.TrimSpace`: remove leading and trailing whitespace. -/
def goTrimSpace (s : List Char) : List Char :=
  ((s.dropWhile isSpaceChar).reverse.dropWhile isSpaceChar).reverse

/-- Go `strings.ToLower` (per-character lowering; the phrases are ASCII). -/
def goToLower (s : List Char) : List Char := s.map Char.toLower

/-- Go `strings.Fields`: split around runs of whitespace, dropping empty
chunks. -/
def goFields (s : List Char) : List (List Char) :=
  (s.splitOnP isSpaceChar).filter (fun w => !w.isEmpty)

/-- Join a list of words with single spaces (Go `strings.Join(words, " ")`). -/
def joinSpace (ws : List (List Char)) : List Char :=
  (ws.intersperse [' ']).flatten

/-- keys.go `DeriveKeyFromPassphrase`: normalizes the passphrase
(trim, lower-case, collapse whitespace via Fields/Join) before derivation. -/
def DeriveKeyFromPassphrase (passphrase : String) (salt : List Nat) : List Nat :=
  let words := goFields (goToLower (goTrimSpace passphrase.toList))
  let normalized := joinSpace words
  DeriveKeyFromSecret (normalized.map Char.toNat) salt

/-- Model of Go `crypto/sha256.Sum256` (external library primitive): an
ideal collision-free 32-byte digest, injective on byte strings whose
elements are below `2 ^ 32` (true of all inputs the source feeds it). -/
def sha256Sum256 (m : List Nat) : List Nat :=
  packBytes m :: List.replicate 31 0

/-- The normalization applied by `HashRecoveryPhrase` in keys.go:
`strings.ToLower(strings.TrimSpace(p))` -- note that unlike
`DeriveKeyFromPassphrase` it does NOT collapse internal whitespace. -/
def hashNormalize (s : String) : List Char :=
  goToLower (goTrimSpace s.toList)

/-- keys.go `HashRecoveryPhrase`: SHA-256 of the trimmed, lower-cased
phrase. -/
def HashRecoveryPhrase (passphrase : String) : List Nat :=
  sha256Sum256 ((hashNormalize passphrase).map Char.toNat)

/-- keys.go `VerifyRecoveryPhrase`: hash the candidate phrase, compare
lengths, then constant-time byte comparison (fold of OR over XOR of the
byte pairs). -/
def VerifyRecoveryPhrase (passphrase : String) (storedHash : List Nat) : Bool :=
  let hash := HashRecoveryPhrase passphrase
  if hash.length = storedHash.length then
    (List.zipWith (fun a b => a ^^^ b) hash storedHash).foldl (fun a b => a ||| b) 0 == 0
  else
    false

/-- keys.go `EncryptDEK`: wraps the DEK with the KEK via `Encrypt`. -/
def EncryptDEK (dek kek nonce : List Nat) : Except CryptoError (List Nat) :=
  Encrypt dek kek nonce

/-- keys.go `DecryptDEK`: unwraps the DEK with the KEK via `Decrypt`. -/
def DecryptDEK (encryptedDEK kek : List Nat) : Except CryptoError (List Nat) :=
  Decrypt encryptedDEK kek

theorem packBytes_append (l : List Nat) (b : Nat) :
    packBytes (l ++ [b]) = packBytes l * packBase + (b + 1) := by
  simp [packBytes, List.foldl_append]

theorem packBytes_eq_zero_iff (l : List Nat) : packBytes l = 0 ↔ l = [] := by
  induction l using List.reverseRecOn with
  | nil => simp [packBytes]
  | append_singleton l b _ => simp [packBytes_append]

theorem packBytes_inj :
    ∀ l₁ l₂ : List Nat, (∀ b ∈ l₁, b < 4294967296) → (∀ b ∈ l₂, b < 4294967296) →
      packBytes l₁ = packBytes l₂ → l₁ = l₂ := by
  intro l₁
  induction l₁ using List.reverseRecOn with
  | nil =>
    intro l₂ _ _ h
    have := (packBytes_eq_zero_iff l₂).mp (by rw [← h]; simp [packBytes])
    simp [this]
  | append_singleton l a ih =>
    intro l₂ h₁ h₂ h
    induction l₂ using List.reverseRecOn with
    | nil =>
      exfalso
      have := (packBytes_eq_zero_iff (l ++ [a])).mp (by rw [h]; simp [packBytes])
      simp at this
    | append_singleton m b _ =>
      rw [packBytes_append, packBytes_append] at h
      have ha : a + 1 < packBase := by
        have := h₁ a (by simp)
        simp only [packBase]; omega
      have hb : b + 1 < packBase := by
        have := h₂ b (by simp)
        simp only [packBase]; omega
      simp only [packBase] at h ha hb
      have hab : a = b := by omega
      have hpq : packBytes l = packBytes m := by omega
      have hl : l = m := ih m (fun x hx => h₁ x (by simp [hx])) (fun x hx => h₂ x (by simp [hx]))
        hpq
      subst hl
      simp [hab]

theorem length_DeriveKeyFromSecret (secret salt : List Nat) :
    (DeriveKeyFromSecret secret salt).length = keySize := by
  simp [DeriveKeyFromSecret, argon2IDKey, argonKeyLen, keySize]

theorem Encrypt_ok (P K nonce : List Nat) (hK : K.length = keySize) :
    Encrypt P K nonce = Except.ok (nonce ++ K ++ P) := by
  simp [Encrypt, hK]

theorem Decrypt_append (P K nonce : List Nat) (hK : K.length = keySize)
    (hn : nonce.length = nonceSize) :
    Decrypt (nonce ++ K ++ P) K = Except.ok P := by
  have hdrop : (nonce ++ K ++ P).drop nonceSize = K ++ P := by
    rw [← hn, List.append_assoc, List.drop_left]
  have hlen : ¬ (nonce ++ K ++ P).length < nonceSize + keySize := by
    simp only [List.length_append, hn, hK]
    omega
  have htake : ((nonce ++ K ++ P).drop nonceSize).take keySize = K := by
    rw [hdrop, ← hK, List.take_left]
  have hdrop2 : (nonce ++ K ++ P).drop (nonceSize + keySize) = P := by
    rw [← List.drop_drop, hdrop, ← hK, List.drop_left]
  unfold Decrypt
  rw [if_pos hK, if_neg hlen, if_pos htake, hdrop2]

theorem Decrypt_append_wrong_key (P K nonce kek : List Nat) (hK : K.length = keySize)
    (hn : nonce.length = nonceSize) (hne : kek ≠ K) :
    ∃ e, Decrypt (nonce ++ K ++ P) kek = Except.error e := by
  unfold Decrypt
  by_cases hk : kek.length = keySize
  · refine ⟨CryptoError.integrity, ?_⟩
    have hdrop : (nonce ++ K ++ P).drop nonceSize = K ++ P := by
      rw [← hn, List.append_assoc, List.drop_left]
    have hlen : ¬ (nonce ++ K ++ P).length < nonceSize + keySize := by
      simp only [List.length_append, hn, hK]
      omega
    have htake : ((nonce ++ K ++ P).drop nonceSize).take keySize = K := by
      rw [hdrop, ← hK, List.take_left]
    rw [if_pos hk, if_neg hlen, htake, if_neg (fun h => hne h.symm)]
  · exact ⟨CryptoError.keyLength, by rw [if_neg hk]⟩

theorem lor_eq_zero_iff (a b : Nat) : a ||| b = 0 ↔ a = 0 ∧ b = 0 := by
  constructor
  · intro h
    have hb : ∀ i, a.testBit i = false ∧ b.testBit i = false := by
      intro i
      have hbit := congrArg (fun n => Nat.testBit n i) h
      simpa [Nat.testBit_lor] using hbit
    exact ⟨Nat.eq_of_testBit_eq fun i => by simp [(hb i).1],
           Nat.eq_of_testBit_eq fun i => by simp [(hb i).2]⟩
  · rintro ⟨rfl, rfl⟩
    rfl

theorem foldl_lor_eq_zero_iff (l : List Nat) (a : Nat) :
    l.foldl (fun x y => x ||| y) a = 0 ↔ a = 0 ∧ ∀ x ∈ l, x = 0 := by
  induction l generalizing a with
  | nil => simp
  | cons b t ih =>
    simp only [List.foldl_cons, ih, lor_eq_zero_iff, List.mem_cons]
    constructor
    · rintro ⟨⟨h1, h2⟩, h3⟩
      refine ⟨h1, fun x hx => ?_⟩
      rcases hx with rfl | hx
      · exact h2
      · exact h3 x hx
    · rintro ⟨h1, h2⟩
      exact ⟨⟨h1, h2 b (Or.inl rfl)⟩, fun x hx => h2 x (Or.inr hx)⟩

theorem zipWith_xor_all_zero_iff (h s : List Nat) (hlen : h.length = s.length) :
    (∀ x ∈ List.zipWith (fun a b => a ^^^ b) h s, x = 0) ↔ h = s := by
  induction h generalizing s with
  | nil =>
    cases s with
    | nil => simp
    | cons b u => simp at hlen
  | cons a t ih =>
    cases s with
    | nil => simp at hlen
    | cons b u =>
      simp only [List.zipWith_cons_cons, List.mem_cons, forall_eq_or_imp, List.cons.injEq]
      rw [ih u (by simpa using hlen)]
      rw [Nat.xor_eq_zero]

theorem length_HashRecoveryPhrase (p : String) : (HashRecoveryPhrase p).length = 32 := by
  simp [HashRecoveryPhrase, sha256Sum256]

theorem sha256Sum256_inj {m₁ m₂ : List Nat} (h₁ : ∀ b ∈ m₁, b < 4294967296)
    (h₂ : ∀ b ∈ m₂, b < 4294967296) (h : sha256Sum256 m₁ = sha256Sum256 m₂) : m₁ = m₂ := by
  simp only [sha256Sum256, List.cons.injEq] at h
  exact packBytes_inj _ _ h₁ h₂ h.1

theorem charToNat_lt (c : Char) : c.toNat < 4294967296 :=
  UInt32.toNat_lt_size c.val

theorem charToNat_inj : Function.Injective Char.toNat := by
  intro a b h
  have := congrArg Char.ofNat h
  rwa [Char.ofNat_toNat, Char.ofNat_toNat] at this

theorem charCodes_lt (s : List Char) : ∀ b ∈ s.map Char.toNat, b < 4294967296 := by
  intro b hb
  rcases List.mem_map.mp hb with ⟨c, _, rfl⟩
  exact charToNat_lt c

/-- C9 (amended): `VerifyRecoveryPhrase(q, HashRecoveryPhrase(p))` returns
true exactly when `q` and `p` agree after trimming leading and trailing
whitespace and lower-casing; in particular it is robust to letter case and
surrounding whitespace, a wrong phrase (different normalized form) never
verifies, but the width of internal whitespace runs must match exactly
(the hash normalization in keys.go does not collapse internal whitespace,
unlike `DeriveKeyFromPassphrase`). -/
theorem C9_verify_iff_trim_lower (p q : String) :
    VerifyRecoveryPhrase q (HashRecoveryPhrase p) = true ↔
      hashNormalize q = hashNormalize p := by
  unfold VerifyRecoveryPhrase
  rw [if_pos (by rw [length_HashRecoveryPhrase, length_HashRecoveryPhrase])]
  rw [beq_iff_eq, foldl_lor_eq_zero_iff]
  have hlen : (HashRecoveryPhrase q).length = (HashRecoveryPhrase p).length := by
    rw [length_HashRecoveryPhrase, length_HashRecoveryPhrase]
  rw [zipWith_xor_all_zero_iff _ _ hlen]
  constructor
  · intro hh
    have hmap := sha256Sum256_inj (charCodes_lt (hashNormalize q))
      (charCodes_lt (hashNormalize p)) hh.2
    exact List.map_injective_iff.mpr charToNat_inj hmap
  · intro hh
    exact ⟨rfl, by unfold HashRecoveryPhrase; rw [hh]⟩

/-- C9 counterexample: the phrase variant differing from the registered one
only in the width of an internal whitespace run does NOT verify, refuting
the claim that verification is robust to internal whitespace width. -/
theorem C9_internal_whitespace_counterexample :
    VerifyRecoveryPhrase "a  b" (HashRecoveryPhrase "a b") = false := by decide

/-- C8: for every plaintext (including the empty one), every 32-byte key
and every fresh nonce, decryption inverts encryption; and encryption fails
with a key-length error for every key whose length is not 32 bytes
(modelled from the spec, since the Go file defining `Encrypt` and `Decrypt`
is absent from the snapshot; behaviour matches `TestEncryptDecrypt`). -/
theorem C8_encrypt_decrypt_roundtrip (P K nonce : List Nat) (hn : nonce.length = nonceSize) :
    (K.length = 32 → ∃ ct, Encrypt P K nonce = Except.ok ct ∧ Decrypt ct K = Except.ok P) ∧
    (K.length ≠ 32 → Encrypt P K nonce = Except.error CryptoError.keyLength) := by
  constructor
  · intro hK
    exact ⟨nonce ++ K ++ P, Encrypt_ok P K nonce hK, Decrypt_append P K nonce hK hn⟩
  · intro hK
    simp [Encrypt, keySize, hK]

/-- Witness for C8 at concrete inputs: the empty plaintext round-trips
under an all-zero 32-byte key, and a 16-byte key is rejected. -/
theorem C8_encrypt_decrypt_roundtrip_witness :
    (∃ ct, Encrypt [] (List.replicate 32 0) (List.replicate 12 0) = Except.ok ct ∧
      Decrypt ct (List.replicate 32 0) = Except.ok []) ∧
    Encrypt [] (List.replicate 16 0) (List.replicate 12 0) =
      Except.error CryptoError.keyLength :=
  ⟨(C8_encrypt_decrypt_roundtrip [] (List.replicate 32 0) (List.replicate 12 0)
      (by decide)).1 (by decide),
   (C8_encrypt_decrypt_roundtrip [] (List.replicate 16 0) (List.replicate 12 0)
      (by decide)).2 (by decide)⟩

/-- keys.go word list: the first 256 BIP39 words (the source comments that
a production deployment would use the full 2048-word list). -/
def wordList : List String :=
  ["abandon", "ability", "able", "about", "above", "absent", "absorb", "abstract",
   "absurd", "abuse", "access", "accident", "account", "accuse", "achieve", "acid",
   "acoustic", "acquire", "across", "act", "action", "actor", "actress", "actual",
   "adapt", "add", "addict", "address", "adjust", "admit", "adult", "advance",
   "advice", "aerobic", "affair", "afford", "afraid", "again", "age", "agent",
   "agree", "ahead", "aim", "air", "airport", "aisle", "alarm", "album",
   "alcohol", "alert", "alien", "all", "alley", "allow", "almost", "alone",
   "alpha", "already", "also", "alter", "always", "amateur", "amazing", "among",
   "amount", "amused", "analyst", "anchor", "ancient", "anger", "angle", "angry",
   "animal", "ankle", "announce", "annual", "another", "answer", "antenna", "antique",
   "anxiety", "any", "apart", "apology", "appear", "apple", "approve", "april",
   "arch", "arctic", "area", "arena", "argue", "arm", "armed", "armor",
   "army", "around", "arrange", "arrest", "arrive", "arrow", "art", "artefact",
   "artist", "artwork", "ask", "aspect", "assault", "asset", "assist", "assume",
   "asthma", "athlete", "atom", "attack", "attend", "attitude", "attract", "auction",
   "audit", "august", "aunt", "author", "auto", "autumn", "average", "avocado",
   "avoid", "awake", "aware", "away", "awesome", "awful", "awkward", "axis",
   "baby", "bachelor", "bacon", "badge", "bag", "balance", "balcony", "ball",
   "bamboo", "banana", "banner", "bar", "barely", "bargain", "barrel", "base",
   "basic", "basket", "battle", "beach", "bean", "beauty", "because", "become",
   "beef", "before", "begin", "behave", "behind", "believe", "below", "belt",
   "bench", "benefit", "best", "betray", "better", "between", "beyond", "bicycle",
   "bid", "bike", "bind", "biology", "bird", "birth", "bitter", "black",
   "blade", "blame", "blanket", "blast", "bleak", "bless", "blind", "blood",
   "blossom", "blouse", "blue", "blur", "blush", "board", "boat", "body",
   "boil", "bomb", "bone", "bonus", "book", "boost", "border", "boring",
   "borrow", "boss", "bottom", "bounce", "box", "boy", "bracket", "brain",
   "brand", "brass", "brave", "bread", "breeze", "brick", "bridge", "brief",
   "bright", "bring", "brisk", "broccoli", "broken", "bronze", "broom", "brother",
   "brown", "brush", "bubble", "buddy", "budget", "buffalo", "build", "bulb",
   "bulk", "bullet", "bundle", "bunker", "burden", "burger", "burst", "bus",
   "business", "busy", "butter", "buyer", "buzz", "cabbage", "cabin", "cable"]

/-- keys.go `GenerateRecoveryPhrase`: 16 bytes of entropy (made explicit as
the `entropy` argument), 12 words, each selected by XOR-ing two entropy
bytes and indexing the word list modulo its length (256).  Note the source
does NOT use the BIP39 11-bits-per-word mapping. -/
def GenerateRecoveryPhrase (entropy : List Nat) : String :=
  let words := (List.range 12).map (fun i =>
    wordList.getD (((entropy.getD (i % 16) 0) ^^^ (entropy.getD ((i + 1) % 16) 0)) % wordList.length) "")
  String.intercalate " " words

/-- models.User (user.go): identity root with the encrypted DEK envelope,
KEK salt and recovery-phrase hash.  Timestamps are omitted (no claim
mentions them). -/
structure User where
  id : Nat
  username : String
  encryptedDEK : List Nat
  dekSalt : List Nat
  recoveryPhraseHash : List Nat
deriving DecidableEq

/-- models.Credential: one authenticator binding. -/
structure Credential where
  id : List Nat
  userID : Nat
  publicKey : List Nat
  attestationType : String
  signCount : Nat
deriving DecidableEq

/-- auth.SessionData (session store): the WebAuthn challenge blob is
opaque to the handlers and modelled as a `Nat`. -/
structure SessionData where
  session : Nat
  username : String
  userID : Nat
  expiresAt : Nat
deriving DecidableEq

/-- models.Account: an OwnU account row (only its encrypted payload
matters here). -/
structure Account where
  id : Nat
  userID : Nat
  encryptedData : List Nat
deriving DecidableEq

/-- models.PlaidItem: a linked external item with its encrypted access
token and sync cursor. -/
structure PlaidItem where
  id : Nat
  userID : Nat
  itemID : String
  encryptedAccessToken : List Nat
  cursor : String
deriving DecidableEq

/-- models.PlaidAccount: an external account, optionally linked to an
internal account. -/
structure PlaidAccount where
  id : Nat
  plaidItemID : Nat
  userID : Nat
  plaidAccountID : String
  accountID : Option Nat
deriving DecidableEq

/-- models.PlaidSync: one sync-history record. -/
structure PlaidSync where
  id : Nat
  plaidItemID : Nat
  userID : Nat
  addedCount : Nat
  modifiedCount : Nat
  removedCount : Nat
  cursorBefore : String
  cursorAfter : String
  errorMessage : String
deriving DecidableEq

/-- models.Transaction: an ingested transaction with its encrypted
payload. -/
structure Transaction where
  id : Nat
  userID : Nat
  accountID : Nat
  encryptedData : List Nat
  transactionDate : String
deriving DecidableEq

/-- The persistent and in-memory state the handlers read and write:
repository tables plus the in-memory ceremony session store. -/
structure ServerState where
  users : List User
  credentials : List Credential
  sessions : List (String × SessionData)
  accounts : List Account
  plaidItems : List PlaidItem
  plaidAccounts : List PlaidAccount
  transactions : List Transaction
  plaidSyncs : List PlaidSync
deriving DecidableEq

/-- SessionStore.Save: store under the handle with a 5-minute expiry
(the expiry is computed by the caller-side model as now + 300; map
assignment is modelled by prepending, with lookups taking the newest
binding). -/
def SessionStore.Save (sessions : List (String × SessionData)) (key : String)
    (d : SessionData) : List (String × SessionData) :=
  (key, d) :: sessions

/-- SessionStore.Get: not-found when the handle is absent or the entry is
past its expiry (Go `time.Now().After(ExpiresAt)` is strict). -/
def SessionStore.Get (sessions : List (String × SessionData)) (key : String)
    (now : Nat) : Option SessionData :=
  match sessions.find? (fun e => e.1 == key) with
  | none => none
  | some e => if now > e.2.expiresAt then none else some e.2

/-- SessionStore.Delete: remove the handle (idempotent). -/
def SessionStore.Delete (sessions : List (String × SessionData))
    (key : String) : List (String × SessionData) :=
  sessions.filter (fun e => e.1 != key)

/-- repository.UserRepository.GetByUsername, modelled as a pure lookup
(storage reachable; `ErrNotFound` equals `none`). -/
def getByUsername (users : List User) (username : String) : Option User :=
  users.find? (fun u => u.username == username)

/-- repository.UserRepository.GetByID, modelled as a pure lookup. -/
def getByID (users : List User) (id : Nat) : Option User :=
  users.find? (fun u => u.id == id)

/-- The stable error classifications returned by the handlers (each
corresponds to one JSON error response in the source). -/
inductive ApiError where
  | invalidRequest
  | usernameRequired
  | usernameExists
  | databaseError
  | sessionExpiredOrInvalid
  | parseFailed
  | verifyFailed
  | encryptFailed
  | createUserFailed
  | createCredentialFailed
  | userLookupFailed
  | authenticationFailed
  | itemNotFound
  | accessDenied
  | decryptKeyFailed
  | decryptTokenFailed
  | syncFailed
deriving DecidableEq

/-- The session token issued by `generateJWT`: the contract material it
embeds is (user ID, wrapped DEK); signing and base64 are external
collaborator concerns. -/
structure AuthToken where
  userID : Nat
  encryptedDEK : List Nat
deriving DecidableEq

/-- Randomness consumed by `beginRegistration`: the phrase entropy, the
fresh session handle, the opaque WebAuthn challenge and the fresh user
ID. -/
structure BeginRegEnv where
  entropy : List Nat
  sessionID : String
  challenge : Nat
  newUserID : Nat
deriving DecidableEq

/-- Result of `beginRegistration`: the challenge options are opaque; the
recovery phrase and session handle are returned to the client. -/
structure BeginRegResult where
  challenge : Nat
  recoveryPhrase : String
  sessionID : String
deriving DecidableEq

/-- auth.go `beginRegistration`: reject the empty username, reject a taken
username, generate the recovery phrase, store the ceremony session under a
fresh handle with a 5-minute (300 s) expiry, and return phrase and
handle. -/
def beginRegistration (st : ServerState) (username : String) (env : BeginRegEnv)
    (now : Nat) : ServerState × Except ApiError BeginRegResult :=
  if username = "" then
    (st, Except.error ApiError.usernameRequired)
  else
    match getByUsername st.users username with
    | some _ => (st, Except.error ApiError.usernameExists)
    | none =>
      let recoveryPhrase := GenerateRecoveryPhrase env.entropy
      let sd : SessionData := ⟨env.challenge, username, env.newUserID, now + 300⟩
      let st' := { st with sessions := SessionStore.Save st.sessions env.sessionID sd }
      (st', Except.ok ⟨env.challenge, recoveryPhrase, env.sessionID⟩)

/-- Inputs of `finishRegistration` that come from the device response, the
randomness source and the storage layer: parse/verify outcomes of
`ParseCredentialCreationResponseBody` / `CreateCredential`, the verified
credential material, fresh DEK / salt / fallback secret / nonce, the
entropy for the second phrase generated at Finish, and the success of the
two storage writes. -/
structure RegFinishEnv where
  parseOk : Bool
  verifyOk : Bool
  credID : List Nat
  credPublicKey : List Nat
  credAttestationType : String
  credSignCount : Nat
  dek : List Nat
  salt : List Nat
  prfOutput : Option (List Nat)
  tempSecret : List Nat
  nonce : List Nat
  finishEntropy : List Nat
  createUserOk : Bool
  createCredentialOk : Bool
deriving DecidableEq

/-- The KEK derived in `finishRegistration`: from the PRF output when
supplied, else from a freshly generated throwaway secret
(`GenerateRandomHex(32)`), in both cases with the fresh salt. -/
def finishRegKEK (env : RegFinishEnv) : List Nat :=
  match env.prfOutput with
  | some prf => DeriveKeyFromSecret prf env.salt
  | none => DeriveKeyFromSecret env.tempSecret env.salt

/-- auth.go `finishRegistration`: look up and (via `defer`) delete the
ceremony session, verify the device response, generate DEK and salt,
derive the KEK, wrap the DEK, regenerate a recovery phrase (the source
hashes a NEW phrase here, not the one returned at Begin), create the user,
create the credential, and issue the token embedding the wrapped DEK.
Every branch after the successful session lookup carries the deferred
session deletion. -/
def finishRegistration (st : ServerState) (sessionID : String) (env : RegFinishEnv)
    (now : Nat) : ServerState × Except ApiError AuthToken :=
  match SessionStore.Get st.sessions sessionID now with
  | none => (st, Except.error ApiError.sessionExpiredOrInvalid)
  | some sd =>
    let st' := { st with sessions := SessionStore.Delete st.sessions sessionID }
    if env.parseOk then
      if env.verifyOk then
        let kek := finishRegKEK env
        match EncryptDEK env.dek kek env.nonce with
        | Except.error _ => (st', Except.error ApiError.encryptFailed)
        | Except.ok encryptedDEK =>
          let recoveryPhrase := GenerateRecoveryPhrase env.finishEntropy
          let recoveryHash := HashRecoveryPhrase recoveryPhrase
          let user : User := ⟨sd.userID, sd.username, encryptedDEK, env.salt, recoveryHash⟩
          if env.createUserOk then
            let st2 := { st' with users := st'.users ++ [user] }
            let cred : Credential := ⟨env.credID, user.id, env.credPublicKey,
              env.credAttestationType, env.credSignCount⟩
            if env.createCredentialOk then
              let st3 := { st2 with credentials := st2.credentials ++ [cred] }
              (st3, Except.ok ⟨user.id, encryptedDEK⟩)
            else
              (st2, Except.error ApiError.createCredentialFailed)
          else
            (st', Except.error ApiError.createUserFailed)
      else
        (st', Except.error ApiError.verifyFailed)
    else
      (st', Except.error ApiError.parseFailed)

/-- Inputs of `finishLogin` from the device response: parse outcome, the
credential the assertion claims, the signature/challenge verification
outcome inside the WebAuthn library, and the assertion's signature
counter. -/
structure LoginFinishEnv where
  parseOk : Bool
  credID : List Nat
  sigValid : Bool
  assertSignCount : Nat
deriving DecidableEq

/-- Model of `Authenticator.UpdateCounter` of the go-webauthn library
(external dependency, translated from its documented behaviour): when the
new counter does not strictly increase and the two are not both zero, the
stored counter is kept and the clone warning is set; otherwise the counter
is updated.  It never reports an error. -/
def updateCounter (stored authDataCount : Nat) : Nat × Bool :=
  if authDataCount ≤ stored ∧ (authDataCount ≠ 0 ∨ stored ≠ 0) then
    (stored, true)
  else
    (authDataCount, false)

/-- The credential state the library hands back to the handler after a
successful `ValidateLogin`. -/
structure ValidatedCredential where
  id : List Nat
  signCount : Nat
  cloneWarning : Bool
deriving DecidableEq

/-- Model of `webauthn.ValidateLogin` (external go-webauthn library):
find the claimed credential among the user's credentials, check the
signature/challenge (outcome supplied as `sigValid`), apply
`updateCounter`, and return the credential with its `cloneWarning` flag.
A non-increasing counter does NOT make it fail; it only sets the flag. -/
def validateLogin (creds : List Credential) (userID : Nat)
    (env : LoginFinishEnv) : Option ValidatedCredential :=
  match creds.find? (fun cr => cr.userID == userID && cr.id == env.credID) with
  | none => none
  | some cr =>
    if env.sigValid then
      let updated := updateCounter cr.signCount env.assertSignCount
      some ⟨cr.id, updated.1, updated.2⟩
    else
      none

/-- repository.UpdateCredentialSignCount: set the stored counter of the
credential with the given ID. -/
def UpdateCredentialSignCount (creds : List Credential) (credID : List Nat)
    (signCount : Nat) : List Credential :=
  creds.map (fun cr => if cr.id == credID then
    ⟨cr.id, cr.userID, cr.publicKey, cr.attestationType, signCount⟩ else cr)

/-- auth.go `finishLogin`: look up and (via `defer`) delete the ceremony
session, look up the user, parse the assertion, validate it through the
library, update the stored signature counter (errors ignored by the
source), and issue the token carrying the user's stored wrapped DEK.
The library's `cloneWarning` is never inspected. -/
def finishLogin (st : ServerState) (sessionID : String) (env : LoginFinishEnv)
    (now : Nat) : ServerState × Except ApiError AuthToken :=
  match SessionStore.Get st.sessions sessionID now with
  | none => (st, Except.error ApiError.sessionExpiredOrInvalid)
  | some sd =>
    let st' := { st with sessions := SessionStore.Delete st.sessions sessionID }
    match getByUsername st'.users sd.username with
    | none => (st', Except.error ApiError.userLookupFailed)
    | some user =>
      if env.parseOk then
        match validateLogin st'.credentials user.id env with
        | none => (st', Except.error ApiError.authenticationFailed)
        | some vcred =>
          let st2 := { st' with credentials :=
            UpdateCredentialSignCount st'.credentials vcred.id vcred.signCount }
          (st2, Except.ok ⟨user.id, user.encryptedDEK⟩)
      else
        (st', Except.error ApiError.parseFailed)

/-- part_003 `decryptDEK` (Server helper): unwrap the token's DEK with a
KEK derived from the hardcoded placeholder secret and the user's stored
salt (the base64 transport encoding is omitted; tokens carry bytes in this
model). -/
def decryptDEK (encryptedDEK : List Nat) (user : User) : Except CryptoError (List Nat) :=
  let kek := DeriveKeyFromSecret (strBytes "placeholder-secret") user.dekSalt
  DecryptDEK encryptedDEK kek

/-- The fields of a provider transaction the sync path reads
(`GetAccountId`, `GetAmount`, `GetName`, `GetMerchantName`, `GetDate`).
The `amount` is a float64 payload carried opaquely: no arithmetic is ever
performed on it, so it is represented by an `Int` carrier. -/
structure PlaidTxn where
  accountId : String
  amount : Int
  name : String
  merchantName : String
  date : String
deriving DecidableEq

/-- plaid.Service `SyncTransactionsResult`: the provider's added, modified
and removed sets plus the next cursor and the has-more flag. -/
structure SyncTransactionsResult where
  added : List PlaidTxn
  modified : List PlaidTxn
  removed : List String
  nextCursor : String
  hasMore : Bool
deriving DecidableEq

/-- models.TransactionData: the sensitive transaction fields serialized
and encrypted with the DEK. -/
structure TransactionData where
  amount : Int
  description : String
  merchant : String
  date : String
deriving DecidableEq

/-- JSON serialization of `TransactionData` (abstract byte encoding; no
claim depends on the wire format). -/
def jsonMarshalTransactionData (d : TransactionData) : List Nat :=
  d.amount.natAbs :: (strBytes d.description ++ strBytes d.merchant ++ strBytes d.date)

/-- repository.PlaidRepository.GetItemByID, modelled as a pure lookup. -/
def getItemByID (items : List PlaidItem) (id : Nat) : Option PlaidItem :=
  items.find? (fun it => it.id == id)

/-- repository.PlaidRepository.GetAccountsByItemID, modelled as a pure
lookup. -/
def getAccountsByItemID (accounts : List PlaidAccount) (plaidItemID : Nat) :
    List PlaidAccount :=
  accounts.filter (fun a => a.plaidItemID == plaidItemID)

/-- repository.PlaidRepository.UpdateItemCursor: set the cursor of the
item with the given ID. -/
def updateItemCursor (items : List PlaidItem) (id : Nat) (cursor : String) :
    List PlaidItem :=
  items.map (fun it => if it.id == id then
    ⟨it.id, it.userID, it.itemID, it.encryptedAccessToken, cursor⟩ else it)

/-- Randomness consumed by one `processPlaidTransaction` call: the
encryption nonce and the fresh transaction UUID. -/
structure TxnRand where
  nonce : List Nat
  newID : Nat
deriving DecidableEq

/-- Error cases of `processPlaidTransaction`. -/
inductive TxnError where
  | noLinkedAccount
  | encryptFailed
deriving DecidableEq

/-- middleware.go `processPlaidTransaction`: resolve the linked internal
account (soft failure when unresolvable), map the provider transaction to
`TransactionData`, serialize and encrypt it with the DEK, build the
transaction record -- and then, per the source's TODO ("Store transaction
using transaction repository / For now, we'll skip actual storage and just
return success"), discard the record and return success without writing
anything.  The date-parse fallback only affects the date value and is
modelled as the identity. -/
def processPlaidTransaction (st : ServerState) (userID plaidItemID : Nat)
    (txn : PlaidTxn) (dek : List Nat) (rnd : TxnRand) : Except TxnError Unit :=
  let plaidAccounts := getAccountsByItemID st.plaidAccounts plaidItemID
  let linked := (plaidAccounts.find? (fun acc =>
    acc.plaidAccountID == txn.accountId && acc.accountID.isSome)).bind (fun acc => acc.accountID)
  match linked with
  | none => Except.error TxnError.noLinkedAccount
  | some linkedAccountID =>
    let txnData : TransactionData := ⟨txn.amount, txn.name, txn.merchantName, txn.date⟩
    let txnDataJSON := jsonMarshalTransactionData txnData
    match Encrypt txnDataJSON dek rnd.nonce with
    | Except.error _ => Except.error TxnError.encryptFailed
    | Except.ok encryptedData =>
      let _transaction : Transaction :=
        ⟨rnd.newID, userID, linkedAccountID, encryptedData, txn.date⟩
      Except.ok ()

/-- Inputs of `syncTransactions` beyond the request: the provider call's
outcome (error text or result batch), the fresh sync-record UUID, the
outcomes of the two best-effort storage writes whose errors the source
ignores, and the per-transaction randomness. -/
structure SyncEnv where
  providerResult : Except String SyncTransactionsResult
  syncID : Nat
  updateCursorOk : Bool
  createSyncOk : Bool
  txnRand : Nat → TxnRand

/-- middleware.go `SyncTransactionsResponse`. -/
structure SyncTransactionsResponse where
  addedCount : Nat
  modifiedCount : Nat
  removedCount : Nat
  hasMore : Bool
deriving DecidableEq

/-- middleware.go `syncTransactions`: look up the item, check ownership,
unwrap the DEK and the access token, call the provider; on provider
failure append a sync-history record carrying the error (cursor untouched)
and return a transport error; on success count the added records that
process successfully, take the modified and removed counts as the set
lengths, advance the cursor to `nextCursor` (errors ignored) and append a
sync-history record. -/
def syncTransactions (st : ServerState) (userID itemID : Nat)
    (encryptedDEKB64 : List Nat) (env : SyncEnv) :
    ServerState × Except ApiError SyncTransactionsResponse :=
  match getItemByID st.plaidItems itemID with
  | none => (st, Except.error ApiError.itemNotFound)
  | some item =>
    if item.userID = userID then
      match getByID st.users userID with
      | none => (st, Except.error ApiError.userLookupFailed)
      | some user =>
        match decryptDEK encryptedDEKB64 user with
        | Except.error _ => (st, Except.error ApiError.decryptKeyFailed)
        | Except.ok dek =>
          match Decrypt item.encryptedAccessToken dek with
          | Except.error _ => (st, Except.error ApiError.decryptTokenFailed)
          | Except.ok _accessToken =>
            match env.providerResult with
            | Except.error msg =>
              let failRec : PlaidSync :=
                ⟨env.syncID, itemID, userID, 0, 0, 0, item.cursor, "", msg⟩
              let st1 := if env.createSyncOk then
                { st with plaidSyncs := st.plaidSyncs ++ [failRec] } else st
              (st1, Except.error ApiError.syncFailed)
            | Except.ok result =>
              let addedCount := (result.added.enum.filter (fun p =>
                match processPlaidTransaction st userID itemID p.2 dek (env.txnRand p.1) with
                | Except.ok _ => true
                | Except.error _ => false)).length
              let modifiedCount := result.modified.length
              let removedCount := result.removed.length
              let st1 := if env.updateCursorOk then
                { st with plaidItems := updateItemCursor st.plaidItems itemID result.nextCursor }
                else st
              let okRec : PlaidSync :=
                ⟨env.syncID, itemID, userID, addedCount, modifiedCount, removedCount,
                  item.cursor, result.nextCursor, ""⟩
              let st2 := if env.createSyncOk then
                { st1 with plaidSyncs := st1.plaidSyncs ++ [okRec] } else st1
              (st2, Except.ok ⟨addedCount, modifiedCount, removedCount, result.hasMore⟩)
    else
      (st, Except.error ApiError.accessDenied)

deriving instance DecidableEq for Except

theorem length_finishRegKEK (env : RegFinishEnv) : (finishRegKEK env).length = keySize := by
  cases h : env.prfOutput <;> simp [finishRegKEK, h, length_DeriveKeyFromSecret]

theorem EncryptDEK_finishRegKEK (env : RegFinishEnv) :
    EncryptDEK env.dek (finishRegKEK env) env.nonce =
      Except.ok (env.nonce ++ finishRegKEK env ++ env.dek) :=
  Encrypt_ok _ _ _ (length_finishRegKEK env)

theorem finishRegistration_not_found (st : ServerState) (sid : String) (env : RegFinishEnv)
    (now : Nat) (h : SessionStore.Get st.sessions sid now = none) :
    finishRegistration st sid env now = (st, Except.error ApiError.sessionExpiredOrInvalid) := by
  simp [finishRegistration, h]

theorem finishLogin_not_found (st : ServerState) (sid : String) (env : LoginFinishEnv)
    (now : Nat) (h : SessionStore.Get st.sessions sid now = none) :
    finishLogin st sid env now = (st, Except.error ApiError.sessionExpiredOrInvalid) := by
  simp [finishLogin, h]

theorem finishRegistration_sessions (st : ServerState) (sid : String) (env : RegFinishEnv)
    (now : Nat) (sd : SessionData) (h : SessionStore.Get st.sessions sid now = some sd) :
    (finishRegistration st sid env now).1.sessions = SessionStore.Delete st.sessions sid := by
  cases hp : env.parseOk <;> cases hv : env.verifyOk <;>
    cases hu : env.createUserOk <;> cases hc : env.createCredentialOk <;>
      simp [finishRegistration, h, hp, hv, hu, hc, EncryptDEK_finishRegKEK]

theorem finishLogin_sessions (st : ServerState) (sid : String) (env : LoginFinishEnv)
    (now : Nat) (sd : SessionData) (h : SessionStore.Get st.sessions sid now = some sd) :
    (finishLogin st sid env now).1.sessions = SessionStore.Delete st.sessions sid := by
  simp only [finishLogin, h]
  cases hu : getByUsername st.users sd.username with
  | none => simp [hu]
  | some u =>
    cases hp : env.parseOk
    · simp [hu, hp]
    · cases hv : validateLogin st.credentials u.id env with
      | none => simp [hu, hp, hv]
      | some vc => simp [hu, hp, hv]

theorem Get_Delete (sessions : List (String × SessionData)) (sid : String) (now : Nat) :
    SessionStore.Get (SessionStore.Delete sessions sid) sid now = none := by
  have hfind : (sessions.filter (fun e => e.1 != sid)).find? (fun e => e.1 == sid) = none := by
    induction sessions with
    | nil => rfl
    | cons e t ih =>
      by_cases he : e.1 = sid
      · simp [List.filter_cons, he, ih]
      · simp [List.filter_cons, List.find?_cons, he, ih]
  simp [SessionStore.Get, SessionStore.Delete, hfind]

theorem finishLogin_ok_inv (st : ServerState) (sid : String) (lenv : LoginFinishEnv)
    (now : Nat) (st' : ServerState) (tok : AuthToken)
    (h : finishLogin st sid lenv now = (st', Except.ok tok)) :
    ∃ sd u, SessionStore.Get st.sessions sid now = some sd ∧
      getByUsername st.users sd.username = some u ∧
      tok.userID = u.id ∧ tok.encryptedDEK = u.encryptedDEK := by
  cases hget : SessionStore.Get st.sessions sid now with
  | none => simp [finishLogin, hget] at h
  | some sd =>
    cases hu : getByUsername st.users sd.username with
    | none => simp [finishLogin, hget, hu] at h
    | some u =>
      cases hp : lenv.parseOk
      · simp [finishLogin, hget, hu, hp] at h
      · cases hv : validateLogin st.credentials u.id lenv with
        | none => simp [finishLogin, hget, hu, hp, hv] at h
        | some vc =>
          simp only [finishLogin, hget, hu, hp, hv] at h
          refine ⟨sd, u, rfl, hu, ?_, ?_⟩
          · have := congrArg (fun p => p.2) h
            simp at this
            simp [← this]
          · have := congrArg (fun p => p.2) h
            simp at this
            simp [← this]

/-- C1: every session token issued by a successful `finishRegistration`
embeds a wrapped DEK that unwraps, under the KEK re-derived from the same
authentication factors supplied at registration (the PRF output, or else
the fallback secret, with the salt stored in the user record), to the
registration-time DEK bytes, and unwraps under no other KEK; and every
token issued by a successful `finishLogin` embeds the logged-in user's
stored wrapped DEK unchanged, so the same unwrap contract carries over to
login-issued tokens. -/
theorem C1_token_dek_unwraps (st : ServerState) (sessionID : String) (env : RegFinishEnv)
    (now : Nat) (st' : ServerState) (tok : AuthToken)
    (hn : env.nonce.length = nonceSize)
    (h : finishRegistration st sessionID env now = (st', Except.ok tok)) :
    DecryptDEK tok.encryptedDEK (finishRegKEK env) = Except.ok env.dek ∧
    (∀ kek, kek ≠ finishRegKEK env →
      ∃ e, DecryptDEK tok.encryptedDEK kek = Except.error e) ∧
    (∃ u ∈ st'.users, u.id = tok.userID ∧ u.dekSalt = env.salt ∧
      u.encryptedDEK = tok.encryptedDEK) ∧
    (∀ st₂ sid₂ lenv now₂ st₂' tok₂,
      finishLogin st₂ sid₂ lenv now₂ = (st₂', Except.ok tok₂) →
      ∃ sd₂ u₂, SessionStore.Get st₂.sessions sid₂ now₂ = some sd₂ ∧
        getByUsername st₂.users sd₂.username = some u₂ ∧
        tok₂.userID = u₂.id ∧ tok₂.encryptedDEK = u₂.encryptedDEK) := by
  cases hget : SessionStore.Get st.sessions sessionID now with
  | none => simp [finishRegistration, hget] at h
  | some sd =>
    cases hp : env.parseOk
    · simp [finishRegistration, hget, hp] at h
    · cases hv : env.verifyOk
      · simp [finishRegistration, hget, hp, hv] at h
      · cases hu : env.createUserOk
        · simp [finishRegistration, hget, hp, hv, hu, EncryptDEK_finishRegKEK] at h
        · cases hc : env.createCredentialOk
          · simp [finishRegistration, hget, hp, hv, hu, hc, EncryptDEK_finishRegKEK] at h
          · have hcomp : finishRegistration st sessionID env now =
                ({ st with
                    sessions := SessionStore.Delete st.sessions sessionID,
                    users := st.users ++ [⟨sd.userID, sd.username,
                      env.nonce ++ finishRegKEK env ++ env.dek, env.salt,
                      HashRecoveryPhrase (GenerateRecoveryPhrase env.finishEntropy)⟩],
                    credentials := st.credentials ++ [⟨env.credID, sd.userID,
                      env.credPublicKey, env.credAttestationType, env.credSignCount⟩] },
                  Except.ok ⟨sd.userID, env.nonce ++ finishRegKEK env ++ env.dek⟩) := by
              simp [finishRegistration, hget, hp, hv, hu, hc, EncryptDEK_finishRegKEK]
            rw [hcomp] at h
            injection h with h1 h2
            injection h2 with h3
            subst h1
            subst h3
            refine ⟨?_, ?_, ?_, ?_⟩
            · exact Decrypt_append env.dek (finishRegKEK env) env.nonce
                (length_finishRegKEK env) hn
            · intro kek hne
              exact Decrypt_append_wrong_key env.dek (finishRegKEK env) env.nonce kek
                (length_finishRegKEK env) hn hne
            · refine ⟨⟨sd.userID, sd.username, env.nonce ++ finishRegKEK env ++ env.dek,
                env.salt, HashRecoveryPhrase (GenerateRecoveryPhrase env.finishEntropy)⟩,
                ?_, rfl, rfl, rfl⟩
              simp
            · intro st₂ sid₂ lenv now₂ st₂' tok₂ hlog
              exact finishLogin_ok_inv st₂ sid₂ lenv now₂ st₂' tok₂ hlog

/-- Concrete registration scenario for the C1 witness. -/
def c1State : ServerState :=
  ⟨[], [], [("sid1", ⟨0, "alice", 42, 300⟩)], [], [], [], [], []⟩

/-- Concrete Finish-step environment for the C1 witness (no PRF supplied,
so the fallback secret is used). -/
def c1Env : RegFinishEnv :=
  ⟨true, true, [1], [2], "none", 0, List.replicate 32 7, [6], none, strBytes "ts",
   List.replicate 12 0, List.replicate 16 0, true, true⟩

/-- The token the C1 witness registration issues. -/
def c1Tok : AuthToken :=
  ⟨42, List.replicate 12 0 ++ finishRegKEK c1Env ++ List.replicate 32 7⟩

/-- Witness for C1: a concrete registration run issues a token whose
wrapped DEK unwraps to the registration DEK under the re-derived KEK, and
the persisted user carries the same salt and wrapped DEK. -/
theorem C1_token_dek_unwraps_witness :
    DecryptDEK c1Tok.encryptedDEK (finishRegKEK c1Env) = Except.ok c1Env.dek ∧
    (∃ u ∈ (finishRegistration c1State "sid1" c1Env 0).1.users,
      u.id = c1Tok.userID ∧ u.dekSalt = c1Env.salt ∧
      u.encryptedDEK = c1Tok.encryptedDEK) := by
  have h : finishRegistration c1State "sid1" c1Env 0 =
      ((finishRegistration c1State "sid1" c1Env 0).1, Except.ok c1Tok) := by decide
  have hc := C1_token_dek_unwraps c1State "sid1" c1Env 0
    (finishRegistration c1State "sid1" c1Env 0).1 c1Tok (by decide) h
  exact ⟨hc.1, hc.2.2.1⟩

/-- Login scenario for C2: user alice with one credential whose stored
signature counter is 5, and a live login ceremony session. -/
def c2State : ServerState :=
  ⟨[⟨7, "alice", [9], [3], [4]⟩], [⟨[1], 7, [2], "none", 5⟩],
   [("sid1", ⟨0, "alice", 7, 300⟩)], [], [], [], [], []⟩

/-- C2 (code defect exhibited at the failing input): with stored counter 5,
assertion counter 3 (both nonzero) and a cryptographically valid signature,
`finishLogin` issues a session token instead of failing closed -- the
library merely sets the clone warning (`updateCounter 5 3 = (5, true)`),
which the handler never inspects, and the stored counter stays at 5. -/
theorem C2_replay_login_succeeds :
    (finishLogin c2State "sid1" ⟨true, [1], true, 3⟩ 0).2 = Except.ok ⟨7, [9]⟩ ∧
    updateCounter 5 3 = (5, true) ∧
    (finishLogin c2State "sid1" ⟨true, [1], true, 3⟩ 0).1.credentials =
      [⟨[1], 7, [2], "none", 5⟩] := by decide

/-- Registration scenario for C4: a live ceremony session, user creation
succeeds, credential persistence fails. -/
def c4State : ServerState :=
  ⟨[], [], [("sid1", ⟨0, "alice", 42, 300⟩)], [], [], [], [], []⟩

/-- Finish-step environment for C4: `createCredentialOk = false`. -/
def c4Env : RegFinishEnv :=
  ⟨true, true, [1], [2], "none", 0, List.replicate 32 7, [6], none, strBytes "ts",
   List.replicate 12 0, List.replicate 16 0, true, false⟩

/-- C4 (code defect exhibited at the failing input): when credential
persistence fails after the user record was created, `finishRegistration`
returns an error but the user record remains persisted with no credential
-- there is no rollback or compensating delete. -/
theorem C4_user_left_without_credential :
    (finishRegistration c4State "sid1" c4Env 0).2 =
      Except.error ApiError.createCredentialFailed ∧
    (∃ u ∈ (finishRegistration c4State "sid1" c4Env 0).1.users,
      u.id = 42 ∧ u.username = "alice") ∧
    (finishRegistration c4State "sid1" c4Env 0).1.credentials = [] := by decide

/-- The empty initial state. -/
def emptyState : ServerState := ⟨[], [], [], [], [], [], [], []⟩

/-- Begin-step environment for C5: all-zero phrase entropy. -/
def c5BeginEnv : BeginRegEnv := ⟨List.replicate 16 0, "sid1", 0, 42⟩

/-- Finish-step phrase entropy for C5: alternating bytes, so every XOR of
adjacent entropy bytes is 1 and the regenerated phrase differs from the
Begin-time one. -/
def c5FinishEntropy : List Nat := (List.range 16).map (fun i => i % 2)

/-- Finish-step environment for C5. -/
def c5FinishEnv : RegFinishEnv :=
  ⟨true, true, [1], [2], "none", 0, List.replicate 32 7, [6], none, strBytes "ts",
   List.replicate 12 0, c5FinishEntropy, true, true⟩

/-- C5 (code defect exhibited at the failing input): `beginRegistration`
returns the phrase generated from the Begin-time entropy, but the user
record persisted by `finishRegistration` carries the hash of a freshly
generated phrase (the source regenerates one at Finish), which differs
from the hash of the phrase that was shown to the user. -/
theorem C5_finish_hashes_fresh_phrase :
    (beginRegistration emptyState "alice" c5BeginEnv 0).2 =
      Except.ok ⟨0, GenerateRecoveryPhrase (List.replicate 16 0), "sid1"⟩ ∧
    ∃ u ∈ (finishRegistration (beginRegistration emptyState "alice" c5BeginEnv 0).1
        "sid1" c5FinishEnv 10).1.users,
      u.recoveryPhraseHash = HashRecoveryPhrase (GenerateRecoveryPhrase c5FinishEntropy) ∧
      u.recoveryPhraseHash ≠
        HashRecoveryPhrase (GenerateRecoveryPhrase (List.replicate 16 0)) := by decide

/-- C6: Finish calls with an unknown or expired (or already-consumed)
session handle return the session-expired-or-invalid error without
touching state, and every handle is single-use: after one Finish call that
found the session (whatever the verification or storage outcome), the
session is deleted from the store and any later Finish call with the same
handle returns the session-expired-or-invalid error. -/
theorem C6_session_single_use (st : ServerState) (sid : String) (now : Nat)
    (renv : RegFinishEnv) (lenv : LoginFinishEnv) :
    (SessionStore.Get st.sessions sid now = none →
      finishRegistration st sid renv now =
        (st, Except.error ApiError.sessionExpiredOrInvalid) ∧
      finishLogin st sid lenv now =
        (st, Except.error ApiError.sessionExpiredOrInvalid)) ∧
    (∀ sd, SessionStore.Get st.sessions sid now = some sd →
      ∀ now₂ renv₂ lenv₂,
        SessionStore.Get (finishRegistration st sid renv now).1.sessions sid now₂ = none ∧
        SessionStore.Get (finishLogin st sid lenv now).1.sessions sid now₂ = none ∧
        (finishRegistration (finishRegistration st sid renv now).1 sid renv₂ now₂).2 =
          Except.error ApiError.sessionExpiredOrInvalid ∧
        (finishLogin (finishRegistration st sid renv now).1 sid lenv₂ now₂).2 =
          Except.error ApiError.sessionExpiredOrInvalid ∧
        (finishRegistration (finishLogin st sid lenv now).1 sid renv₂ now₂).2 =
          Except.error ApiError.sessionExpiredOrInvalid ∧
        (finishLogin (finishLogin st sid lenv now).1 sid lenv₂ now₂).2 =
          Except.error ApiError.sessionExpiredOrInvalid) := by
  constructor
  · intro h
    exact ⟨finishRegistration_not_found st sid renv now h,
      finishLogin_not_found st sid lenv now h⟩
  · intro sd h now₂ renv₂ lenv₂
    have hr : SessionStore.Get (finishRegistration st sid renv now).1.sessions sid now₂
        = none := by
      rw [finishRegistration_sessions st sid renv now sd h]
      exact Get_Delete st.sessions sid now₂
    have hl : SessionStore.Get (finishLogin st sid lenv now).1.sessions sid now₂
        = none := by
      rw [finishLogin_sessions st sid lenv now sd h]
      exact Get_Delete st.sessions sid now₂
    refine ⟨hr, hl, ?_, ?_, ?_, ?_⟩
    · rw [finishRegistration_not_found _ sid renv₂ now₂ hr]
    · rw [finishLogin_not_found _ sid lenv₂ now₂ hr]
    · rw [finishRegistration_not_found _ sid renv₂ now₂ hl]
    · rw [finishLogin_not_found _ sid lenv₂ now₂ hl]

/-- State for the C6 witness: one live session expiring at t = 300. -/
def c6State : ServerState :=
  ⟨[], [], [("sid1", ⟨0, "alice", 7, 300⟩)], [], [], [], [], []⟩

/-- Registration Finish environment for the C6 witness. -/
def c6REnv : RegFinishEnv :=
  ⟨true, true, [1], [2], "none", 0, List.replicate 32 7, [6], none, strBytes "ts",
   List.replicate 12 0, List.replicate 16 0, true, true⟩

/-- Login Finish environment for the C6 witness. -/
def c6LEnv : LoginFinishEnv := ⟨true, [1], true, 3⟩

/-- Witness for C6: a consumed handle is rejected on reuse, an unknown
handle is rejected, and an expired handle (now = 301 > 300) is rejected. -/
theorem C6_session_single_use_witness :
    (finishRegistration (finishRegistration c6State "sid1" c6REnv 0).1 "sid1" c6REnv 1).2 =
      Except.error ApiError.sessionExpiredOrInvalid ∧
    finishRegistration c6State "nosuch" c6REnv 0 =
      (c6State, Except.error ApiError.sessionExpiredOrInvalid) ∧
    finishLogin c6State "sid1" c6LEnv 301 =
      (c6State, Except.error ApiError.sessionExpiredOrInvalid) := by
  refine ⟨?_, ?_, ?_⟩
  · exact (((C6_session_single_use c6State "sid1" 0 c6REnv c6LEnv).2
      ⟨0, "alice", 7, 300⟩ (by decide)) 1 c6REnv c6LEnv).2.2.1
  · exact ((C6_session_single_use c6State "nosuch" 0 c6REnv c6LEnv).1 (by decide)).1
  · exact ((C6_session_single_use c6State "sid1" 301 c6REnv c6LEnv).1 (by decide)).2

/-- C7: when the provider call fails, `syncTransactions` returns a
transport error, leaves the item list (and so every persisted cursor) and
all records unchanged, and still appends a sync-history record carrying
the provider error text and the prior cursor (whenever that best-effort
write itself succeeds; its own error is ignored by the source). -/
theorem C7_provider_failure_no_cursor_advance (st : ServerState) (userID itemID : Nat)
    (tokenDEK : List Nat) (env : SyncEnv) (item : PlaidItem) (user : User)
    (dek : List Nat) (msg : String)
    (hitem : getItemByID st.plaidItems itemID = some item)
    (hown : item.userID = userID)
    (huser : getByID st.users userID = some user)
    (hdek : decryptDEK tokenDEK user = Except.ok dek)
    (htok : ∃ tokb, Decrypt item.encryptedAccessToken dek = Except.ok tokb)
    (hprov : env.providerResult = Except.error msg) :
    (syncTransactions st userID itemID tokenDEK env).2 =
      Except.error ApiError.syncFailed ∧
    (syncTransactions st userID itemID tokenDEK env).1.plaidItems = st.plaidItems ∧
    (syncTransactions st userID itemID tokenDEK env).1.transactions = st.transactions ∧
    (syncTransactions st userID itemID tokenDEK env).1.accounts = st.accounts ∧
    (env.createSyncOk = true →
      (syncTransactions st userID itemID tokenDEK env).1.plaidSyncs =
        st.plaidSyncs ++ [⟨env.syncID, itemID, userID, 0, 0, 0, item.cursor, "", msg⟩]) := by
  obtain ⟨tokb, htokb⟩ := htok
  cases hcs : env.createSyncOk <;>
    simp [syncTransactions, hitem, hown, huser, hdek, htokb, hprov, hcs]

/-- Salt, keys and ciphertexts for the concrete sync scenarios.  The
stored wrapped DEK is wrapped under the placeholder-derived KEK so that
the request-path unwrap succeeds. -/
def c7Salt : List Nat := [6]

/-- KEK the server re-derives on the request path. -/
def c7KEK : List Nat := DeriveKeyFromSecret (strBytes "placeholder-secret") c7Salt

/-- The per-user DEK of the sync scenarios. -/
def c7DEK : List Nat := List.replicate 32 7

/-- The wrapped DEK carried by the session token. -/
def c7TokenDEK : List Nat := List.replicate 12 0 ++ c7KEK ++ c7DEK

/-- The encrypted provider access token stored on the item. -/
def c7AccessCt : List Nat := List.replicate 12 0 ++ c7DEK ++ strBytes "atok"

/-- The user of the sync scenarios. -/
def c7User : User := ⟨7, "alice", c7TokenDEK, c7Salt, [4]⟩

/-- The linked item of the sync scenarios, cursor at "cur0". -/
def c7Item : PlaidItem := ⟨11, 7, "item-1", c7AccessCt, "cur0"⟩

/-- State for the C7 witness. -/
def c7State : ServerState := ⟨[c7User], [], [], [], [c7Item], [], [], []⟩

/-- Environment for the C7 witness: the provider call fails. -/
def c7Env : SyncEnv :=
  ⟨Except.error "provider down", 31, true, true, fun _ => ⟨List.replicate 12 1, 77⟩⟩

/-- Witness for C7 at the concrete scenario. -/
theorem C7_provider_failure_witness :
    (syncTransactions c7State 7 11 c7TokenDEK c7Env).2 =
      Except.error ApiError.syncFailed ∧
    (syncTransactions c7State 7 11 c7TokenDEK c7Env).1.plaidItems = c7State.plaidItems ∧
    (syncTransactions c7State 7 11 c7TokenDEK c7Env).1.plaidSyncs =
      c7State.plaidSyncs ++ [⟨31, 11, 7, 0, 0, 0, "cur0", "", "provider down"⟩] := by
  have hc := C7_provider_failure_no_cursor_advance c7State 7 11 c7TokenDEK c7Env
    c7Item c7User c7DEK "provider down" (by decide) (by decide) (by decide) (by decide)
    ⟨strBytes "atok", by decide⟩ (by decide)
  exact ⟨hc.1, hc.2.1, hc.2.2.2.2 rfl⟩

/-- C10: on a successful provider call, the modified and removed sets are
never applied to any stored data -- users, credentials, accounts,
transactions and provider accounts are all unchanged -- and the returned
ModifiedCount and RemovedCount are exactly the lengths of the sets as the
provider delivered them. -/
theorem C10_modified_removed_not_applied (st : ServerState) (userID itemID : Nat)
    (tokenDEK : List Nat) (env : SyncEnv) (item : PlaidItem) (user : User)
    (dek : List Nat) (result : SyncTransactionsResult)
    (hitem : getItemByID st.plaidItems itemID = some item)
    (hown : item.userID = userID)
    (huser : getByID st.users userID = some user)
    (hdek : decryptDEK tokenDEK user = Except.ok dek)
    (htok : ∃ tokb, Decrypt item.encryptedAccessToken dek = Except.ok tokb)
    (hprov : env.providerResult = Except.ok result) :
    (syncTransactions st userID itemID tokenDEK env).1.transactions = st.transactions ∧
    (syncTransactions st userID itemID tokenDEK env).1.accounts = st.accounts ∧
    (syncTransactions st userID itemID tokenDEK env).1.plaidAccounts = st.plaidAccounts ∧
    (syncTransactions st userID itemID tokenDEK env).1.users = st.users ∧
    (syncTransactions st userID itemID tokenDEK env).1.credentials = st.credentials ∧
    ∃ outcome, (syncTransactions st userID itemID tokenDEK env).2 = Except.ok outcome ∧
      outcome.modifiedCount = result.modified.length ∧
      outcome.removedCount = result.removed.length := by
  obtain ⟨tokb, htokb⟩ := htok
  cases hcu : env.updateCursorOk <;> cases hcs : env.createSyncOk <;>
    simp [syncTransactions, hitem, hown, huser, hdek, htokb, hprov, hcu, hcs]

/-- A provider transaction whose account resolves to a linked internal
account. -/
def c3Txn : PlaidTxn := ⟨"pacc-1", 5, "coffee", "cafe", "2024-01-02"⟩

/-- The linked provider account (linked to internal account 99). -/
def c3Account : PlaidAccount := ⟨21, 11, 7, "pacc-1", some 99⟩

/-- State for the C3 and C10 scenarios: the linked account is present and
no transaction is persisted yet. -/
def c3State : ServerState := ⟨[c7User], [], [], [], [c7Item], [c3Account], [], []⟩

/-- Environment for C3: the provider delivers one added transaction and
the next cursor "cur1". -/
def c3Env : SyncEnv :=
  ⟨Except.ok ⟨[c3Txn], [], [], "cur1", false⟩, 31, true, true,
   fun _ => ⟨List.replicate 12 1, 77⟩⟩

/-- C3 (code defect exhibited at the failing input): a successful sync of a
batch with one resolvable added record reports AddedCount 1 and advances
the persisted cursor to the provider's nextCursor, yet no transaction
record is persisted -- the transaction table stays empty, because
`processPlaidTransaction` discards the built record (its storage step is a
TODO that returns success without writing). -/
theorem C3_added_not_persisted_cursor_advanced :
    (syncTransactions c3State 7 11 c7TokenDEK c3Env).2 = Except.ok ⟨1, 0, 0, false⟩ ∧
    c3State.transactions = [] ∧
    (syncTransactions c3State 7 11 c7TokenDEK c3Env).1.transactions = [] ∧
    (syncTransactions c3State 7 11 c7TokenDEK c3Env).1.plaidItems =
      [⟨11, 7, "item-1", c7AccessCt, "cur1"⟩] := by decide

/-- Environment for the C10 witness: one modified and two removed records
delivered. -/
def c10Env : SyncEnv :=
  ⟨Except.ok ⟨[], [c3Txn], ["r1", "r2"], "cur2", true⟩, 32, true, true,
   fun _ => ⟨List.replicate 12 1, 78⟩⟩

/-- Witness for C10 at the concrete scenario. -/
theorem C10_modified_removed_not_applied_witness :
    (syncTransactions c3State 7 11 c7TokenDEK c10Env).1.transactions =
      c3State.transactions ∧
    (syncTransactions c3State 7 11 c7TokenDEK c10Env).1.plaidAccounts =
      c3State.plaidAccounts ∧
    ∃ outcome, (syncTransactions c3State 7 11 c7TokenDEK c10Env).2 = Except.ok outcome ∧
      outcome.modifiedCount = 1 ∧ outcome.removedCount = 2 := by
  have hc := C10_modified_removed_not_applied c3State 7 11 c7TokenDEK c10Env
    c7Item c7User c7DEK ⟨[], [c3Txn], ["r1", "r2"], "cur2", true⟩
    (by decide) (by decide) (by decide) (by decide)
    ⟨strBytes "atok", by decide⟩ (by decide)
  exact ⟨hc.1, hc.2.2.1, hc.2.2.2.2.2⟩
